import Mathlib

/-!
Verification of the photoshare web application (`src/app.py`).

The handlers in `app.py` are shallowly embedded below: the relational
state (Photo/Like/Save/Comment tables) becomes explicit record-of-lists
state, the external libraries (PIL, TextBlob, the Azure blob client)
become abstract inputs — an image is represented by the statistics PIL
would report (size, mean luminance, averaged pixel), the sentiment scorer
is an arbitrary function from text to a rational polarity, and each
fallible backend call by an `Except` value describing its outcome.
Rationals stand in for Python floats; the thresholds (-0.3, 0.3, 80, 150,
1000000) are exact in both.
-/

namespace PhotoShare

/-- Statistics of a successfully decoded RGB image, as PIL reports them in
`analyze_image`: `width`/`height` from `img_obj.size`, `brightness` the
mean of the L-channel (`ImageStat.Stat(img.convert('L')).mean[0]`, a float
on the 0–255 scale, modelled as a rational), and `(r, g, b)` the pixel of
the 1×1 downscale (`img.resize((1,1)).getpixel((0,0))`). -/
structure ImageData where
  width : Nat
  height : Nat
  brightness : ℚ
  r : Nat
  g : Nat
  b : Nat
deriving Repr, DecidableEq

/-- An image object handed to `analyze_image`: either every PIL step
(convert, size, ImageStat, resize, getpixel) succeeds and yields the
statistics, or some step raises an exception with a message. -/
inductive ImageObj where
  | ok (d : ImageData)
  | raises (msg : String)
deriving Repr, DecidableEq

/-- Quality tag of `analyze_image` (app.py lines 123–125):
`"HD ᴴᴰ"` when `width * height > 1000000`, else `"SD"`. -/
def resolutionTag (width height : Nat) : String :=
  if width * height > 1000000 then "HD ᴴᴰ" else "SD"

/-- Brightness tag of `analyze_image` (app.py lines 128–132). -/
def brightnessTag (brightness : ℚ) : String :=
  if brightness > 150 then "Bright ☀️"
  else if brightness < 80 then "Dark 🌙"
  else "Neutral Lighting ☁️"

/-- Color tag of `analyze_image` (app.py lines 135–140), computed from the
`(r, g, b)` of the single downsampled pixel. -/
def colorTag (r g b : Nat) : String :=
  if r > g ∧ r > b then "Warm Tone 🔴"
  else if b > r ∧ b > g then "Cool Tone 🔵"
  else "Balanced Color 🎨"

/-- The tag list accumulated by `analyze_image` when no step raises. -/
def analyzeTags (d : ImageData) : List String :=
  [resolutionTag d.width d.height, brightnessTag d.brightness,
   colorTag d.r d.g d.b]

/-- `analyze_image` (app.py lines 117–145): on success the three tags
joined by `" | "`; any exception is caught locally and yields the
sentinel `"Not Analyzed"`. -/
def analyze_image (img : ImageObj) : String :=
  match img with
  | .ok d => String.intercalate " | " (analyzeTags d)
  | .raises _ => "Not Analyzed"

/-- A row of the `User` table (`models.User`); only the fields the
embedded handlers read: primary key, `username`, `role`. -/
structure User where
  id : Nat
  username : String
  role : String
deriving Repr, DecidableEq

/-- A row of the `Photo` table as created at app.py lines 221–223. -/
structure PhotoRow where
  id : Nat
  filename : String
  title : String
  caption : Option String
  location : Option String
  people_present : Option String
  auto_tags : String
  user_id : Nat
deriving Repr, DecidableEq

/-- A row of the `Comment` table as created at app.py line 281. -/
structure CommentRow where
  text : String
  user_id : Nat
  photo_id : Nat
deriving Repr, DecidableEq

/-- The relational state the handlers touch: the `Photo` table and the
`Like`, `Save` (both keyed by `(user_id, photo_id)`) and `Comment`
tables, each as a list of rows in insertion order. -/
structure DB where
  photos : List PhotoRow
  likes : List (Nat × Nat)
  saves : List (Nat × Nat)
  comments : List CommentRow
deriving Repr, DecidableEq

/-- The filter `filter_by(user_id=..., photo_id=...)` used by
`toggle_like` (line 238) and `toggle_save` (line 254). -/
def pairEq (uid pid : Nat) : Nat × Nat → Bool :=
  fun q => q.1 == uid && q.2 == pid

/-- `Photo.query.get_or_404(photo_id)` succeeds iff a Photo row with
this primary key exists. -/
def photoExists (db : DB) (pid : Nat) : Bool :=
  db.photos.any (fun ph => ph.id == pid)

/-- `photo.likes.count()` (line 247): number of Like rows for a photo. -/
def likeCount (db : DB) (pid : Nat) : Nat :=
  db.likes.countP (fun q => q.2 == pid)

/-- The shared read-then-write of `toggle_like` (lines 238–245) and
`toggle_save` (lines 254–261) on the respective table: `.first()` the
row for the `(user, photo)` pair, delete it if present, insert the pair
otherwise. -/
def toggleMembership (uid pid : Nat) (l : List (Nat × Nat)) :
    List (Nat × Nat) :=
  match l.find? (pairEq uid pid) with
  | some _ => l.eraseP (pairEq uid pid)
  | none => l ++ [(uid, pid)]

/-- JSON outcome of `toggle_like`: the creator rejection
`{'liked': False, 'error': 'Creators cannot like'}` (line 236), the
`get_or_404` abort, or `{'liked': liked, 'count': ...}` (line 247). -/
inductive ToggleLikeResult where
  | creatorRejected
  | notFound
  | toggled (liked : Bool) (count : Nat)
deriving Repr, DecidableEq

/-- JSON outcome of `toggle_save` (lines 252, 263). -/
inductive ToggleSaveResult where
  | creatorRejected
  | notFound
  | toggled (saved : Bool)
deriving Repr, DecidableEq

/-- `toggle_like` (app.py lines 233–247). -/
def toggle_like (u : User) (pid : Nat) (db : DB) :
    ToggleLikeResult × DB :=
  if u.role = "creator" then (.creatorRejected, db)
  else if photoExists db pid then
    let existing_like := db.likes.find? (pairEq u.id pid)
    let db' := { db with likes := toggleMembership u.id pid db.likes }
    (.toggled existing_like.isNone (likeCount db' pid), db')
  else (.notFound, db)

/-- `toggle_save` (app.py lines 249–263). -/
def toggle_save (u : User) (pid : Nat) (db : DB) :
    ToggleSaveResult × DB :=
  if u.role = "creator" then (.creatorRejected, db)
  else if photoExists db pid then
    let existing_save := db.saves.find? (pairEq u.id pid)
    let db' := { db with saves := toggleMembership u.id pid db.saves }
    (.toggled existing_save.isNone, db')
  else (.notFound, db)

/-- JSON outcome of `add_comment`:
`{'success': False, 'message': ...}` or
`{'success': True, 'username': ..., 'text': ..., 'sentiment': ...}`. -/
inductive CommentResult where
  | failure (message : String)
  | success (username : String) (text : String) (sentiment : String)
deriving Repr, DecidableEq

/-- The threshold `-0.3` of app.py line 274, as the exact rational
-3/10 (Python's literal `-0.3` is the nearest double to it; the spec
and the code compare against the decimal value, which the rational
represents exactly for the purposes of the ordering predicates used).
Written with `mkRat` so that the kernel can evaluate comparisons;
`negThreshold_eq` below identifies it with the literal `-0.3 : ℚ`. -/
def negThreshold : ℚ := mkRat (-3) 10

/-- The threshold `0.3` of app.py line 277, as the exact rational 3/10;
`posThreshold_eq` identifies it with the literal `0.3 : ℚ`. -/
def posThreshold : ℚ := mkRat 3 10

/-- The marker appended to accepted comment text by app.py
lines 277–279, as a function of the polarity score. -/
def sentimentMarker (score : ℚ) : String :=
  if score > posThreshold then " [AI: Positive]"
  else if score < 0 then " [AI: Negative]"
  else " [AI: Neutral]"

/-- The `sentiment_type` label set alongside the marker
(app.py lines 276–279). -/
def sentimentLabel (score : ℚ) : String :=
  if score > posThreshold then "positive"
  else if score < 0 then "negative"
  else "neutral"

/-- Python's `s.split(sep)[0]` for a nonempty separator, on character
lists: the characters strictly before the first occurrence of `sep`
(all of `s` when `sep` does not occur). Embeds line 283's
`text.split('[AI:')[0]`. -/
def splitHead (sep : List Char) : List Char → List Char
  | [] => []
  | c :: cs => if sep.isPrefixOf (c :: cs) then [] else c :: splitHead sep cs

/-- `add_comment` (app.py lines 265–284). The external sentiment scorer
`TextBlob(text).sentiment.polarity` is an arbitrary pure function
`polarity` from the text to a rational score; `text` is `None` when the
form field is missing. -/
def add_comment (polarity : String → ℚ) (u : User) (pid : Nat)
    (text? : Option String) (db : DB) : CommentResult × DB :=
  if u.role = "creator" then (.failure "Creators cannot comment", db)
  else
    match text? with
    | none => (.failure "Empty comment", db)
    | some text =>
      if text = "" then (.failure "Empty comment", db)
      else
        let score := polarity text
        if score < negThreshold then
          (.failure "Blocked: Negative content 🚫", db)
        else
          let text1 := text ++ sentimentMarker score
          let sentiment_type := sentimentLabel score
          let db' := { db with
            comments := db.comments ++ [⟨text1, u.id, pid⟩] }
          let clean_text := String.mk (splitHead "[AI:".data text1.data)
          (.success u.username clean_text sentiment_type, db')

/-- Truthiness of an optional environment string in a Python `if`:
`None` and the empty string are falsy. -/
def envTruthy : Option String → Bool
  | none => false
  | some s => !(s == "")

/-- The storage configuration computed once at startup (app.py
lines 61–80): `blob_service_client` is `some ()` when a connection
string was present and `BlobServiceClient.from_connection_string`
succeeded, `AZURE_CONTAINER_NAME` and `LOCAL_UPLOADS` come from the
environment. -/
structure StorageConfig where
  blob_service_client : Option Unit
  container_name : Option String
  local_uploads : Bool
deriving Repr, DecidableEq

/-- Outcome of a POST to `/upload` (`creator_dashboard`,
app.py lines 181–231). -/
inductive UploadOutcome where
  | rejectedNotCreator
  | renderedForm
  | storageUnavailable
  | uploadError (msg : String)
  | uploaded (url : String)
deriving Repr, DecidableEq

/-- The POST branch of `creator_dashboard` (app.py lines 181–231).
External effects are abstract inputs: `openOutcome` is the result of
`Image.open`/`convert` (an exception there is caught by the outer
`except`), `azureOutcome` the result of the blob upload
(`blob_client.url` on success), `localOutcome` the result of the local
save (the static URL on success), and `newPhotoId` the primary key the
database would assign. The request carries the uploaded file's filename
(`none` when no file part is present) and the four form fields. -/
def creator_dashboard (cfg : StorageConfig) (u : User)
    (file : Option String) (title caption people location : Option String)
    (openOutcome : Except String ImageObj)
    (azureOutcome localOutcome : Except String String)
    (newPhotoId : Nat) (db : DB) : UploadOutcome × DB :=
  if ¬ u.role = "creator" then (.rejectedNotCreator, db)
  else
    match file, title with
    | some f, some t =>
      if f = "" ∨ t = "" then (.renderedForm, db)
      else
        match openOutcome with
        | .error e => (.uploadError ("Upload Error: " ++ e), db)
        | .ok img =>
          let auto_tags := analyze_image img
          if cfg.blob_service_client.isSome ∧ envTruthy cfg.container_name
          then
            match azureOutcome with
            | .error e => (.uploadError ("Upload Error: " ++ e), db)
            | .ok file_url =>
              (.uploaded file_url, { db with photos := db.photos ++
                [⟨newPhotoId, file_url, t, caption, location, people,
                  auto_tags, u.id⟩] })
          else if cfg.local_uploads then
            match localOutcome with
            | .error e => (.uploadError ("Upload Error: " ++ e), db)
            | .ok file_url =>
              (.uploaded file_url, { db with photos := db.photos ++
                [⟨newPhotoId, file_url, t, caption, location, people,
                  auto_tags, u.id⟩] })
          else (.storageUnavailable, db)
    | _, _ => (.renderedForm, db)

/-- Accessor for the count reported in the `toggle_like` JSON. -/
def reportedCount : ToggleLikeResult → Option Nat
  | .toggled _ c => some c
  | _ => none

/-- The §3 invariant for one join table: every `(user, photo)` pair
appears at most once. -/
def UniquePairs (l : List (Nat × Nat)) : Prop := ∀ q, l.count q ≤ 1

/-- The separator `'[AI:'` of app.py line 283, as a character list. -/
def sepAI : List Char := ['[', 'A', 'I', ':']

/-- `sep` occurs as a contiguous subsequence of `s`. -/
def occursIn (sep : List Char) : List Char → Bool
  | [] => sep.isEmpty
  | c :: cs => sep.isPrefixOf (c :: cs) || occursIn sep cs

end PhotoShare

namespace PhotoShare

theorem negThreshold_eq : negThreshold = -0.3 := by
  rw [negThreshold, Rat.mkRat_eq_div]; norm_num

theorem posThreshold_eq : posThreshold = 0.3 := by
  rw [posThreshold, Rat.mkRat_eq_div]; norm_num

/-- C4: the tagger's resolution class is `"HD ᴴᴰ"` iff `width*height`
strictly exceeds 1,000,000, and `"SD"` otherwise; an image of exactly
1,000,000 pixels (1000×1000) is classed `"SD"`. -/
theorem resolution_class_hd_iff (w h : Nat) :
    (resolutionTag w h = "HD ᴴᴰ" ↔ w * h > 1000000) ∧
    (resolutionTag w h = "SD" ↔ ¬ w * h > 1000000) ∧
    resolutionTag 1000 1000 = "SD" := by
  refine ⟨?_, ?_, by decide⟩ <;> unfold resolutionTag <;> split_ifs with hw
  · exact iff_of_true rfl hw
  · exact iff_of_false (by decide) hw
  · exact iff_of_false (by decide) (not_not_intro hw)
  · exact iff_of_true rfl hw

/-- C5: brightness class is `"Bright ☀️"` iff mean luminance > 150,
`"Dark 🌙"` iff it is < 80, and `"Neutral Lighting ☁️"` otherwise;
in particular the boundary values 80 and 150 are both Neutral. -/
theorem brightness_class_cases (x : ℚ) :
    (brightnessTag x = "Bright ☀️" ↔ x > 150) ∧
    (brightnessTag x = "Dark 🌙" ↔ x < 80) ∧
    (brightnessTag x = "Neutral Lighting ☁️" ↔ 80 ≤ x ∧ x ≤ 150) ∧
    brightnessTag 80 = "Neutral Lighting ☁️" ∧
    brightnessTag 150 = "Neutral Lighting ☁️" := by
  refine ⟨?_, ?_, ?_, by decide, by decide⟩ <;>
    unfold brightnessTag <;> split_ifs with h1 h2
  · exact iff_of_true rfl h1
  · exact iff_of_false (by decide) h1
  · exact iff_of_false (by decide) h1
  · exact iff_of_false (by decide) (by intro hc; linarith)
  · exact iff_of_true rfl h2
  · exact iff_of_false (by decide) h2
  · exact iff_of_false (by decide) (by intro hc; linarith [hc.2])
  · exact iff_of_false (by decide) (by intro hc; linarith [hc.1])
  · exact iff_of_true rfl ⟨le_of_not_lt h2, le_of_not_lt h1⟩

/-- C6: color-temperature class, computed from the single averaged
pixel's `(r, g, b)`: `"Warm Tone 🔴"` iff red is strictly greater than
both green and blue, `"Cool Tone 🔵"` iff blue is strictly greater than
both red and green, and `"Balanced Color 🎨"` in every other case
(ties and green-dominant pixels included). -/
theorem color_class_cases (r g b : Nat) :
    (colorTag r g b = "Warm Tone 🔴" ↔ r > g ∧ r > b) ∧
    (colorTag r g b = "Cool Tone 🔵" ↔ b > r ∧ b > g) ∧
    (colorTag r g b = "Balanced Color 🎨" ↔
      ¬(r > g ∧ r > b) ∧ ¬(b > r ∧ b > g)) := by
  unfold colorTag
  split_ifs with h1 h2
  · exact ⟨iff_of_true rfl h1, iff_of_false (by decide) (by omega),
      iff_of_false (by decide) (by omega)⟩
  · exact ⟨iff_of_false (by decide) h1, iff_of_true rfl h2,
      iff_of_false (by decide) (by omega)⟩
  · exact ⟨iff_of_false (by decide) h1, iff_of_false (by decide) h2,
      iff_of_true rfl ⟨h1, h2⟩⟩

/-- C8: `analyze_image` is a total function on image objects: when any
analysis step raises, the exception is caught locally and the fixed
sentinel `"Not Analyzed"` is returned; on every other input the joined
tag string is returned, so no exception ever reaches the caller. -/
theorem analyze_image_total (img : ImageObj) :
    (∀ msg, img = .raises msg → analyze_image img = "Not Analyzed") ∧
    (∀ d, img = .ok d →
      analyze_image img = String.intercalate " | " (analyzeTags d)) := by
  cases img with
  | ok d => exact ⟨fun msg h => (by simp at h), fun d' h => (by cases h; rfl)⟩
  | raises m => exact ⟨fun msg h => rfl, fun d h => (by simp at h)⟩

/-- Witness for C8 at concrete inputs: a raising image yields the
sentinel, and a concrete 2000×2000 bright image yields its tag string. -/
theorem analyze_image_total_witness :
    analyze_image (.raises "decode error") = "Not Analyzed" ∧
    analyze_image (.ok ⟨2000, 2000, 255, 255, 255, 255⟩) =
      "HD ᴴᴰ | Bright ☀️ | Balanced Color 🎨" := by
  exact ⟨(analyze_image_total (.raises "decode error")).1 "decode error" rfl,
    by rw [(analyze_image_total (.ok ⟨2000, 2000, 255, 255, 255, 255⟩)).2
      ⟨2000, 2000, 255, 255, 255, 255⟩ rfl]; decide⟩

/-- C3: a user whose role is `"creator"` is rejected by all three of
`toggle_like`, `toggle_save` and `add_comment`, and the database is left
completely unchanged: no Like, Save or Comment row is created or
deleted. -/
theorem creator_actions_rejected (u : User) (pid : Nat)
    (text? : Option String) (pol : String → ℚ) (db : DB)
    (hrole : u.role = "creator") :
    toggle_like u pid db = (.creatorRejected, db) ∧
    toggle_save u pid db = (.creatorRejected, db) ∧
    add_comment pol u pid text? db =
      (.failure "Creators cannot comment", db) := by
  refine ⟨?_, ?_, ?_⟩ <;> simp [toggle_like, toggle_save, add_comment, hrole]

/-- Witness for C3: a concrete creator is rejected by all three handlers
on a concrete state. -/
theorem creator_actions_rejected_witness :
    toggle_like ⟨1, "alice", "creator"⟩ 1 ⟨[], [], [], []⟩ =
      (.creatorRejected, ⟨[], [], [], []⟩) ∧
    toggle_save ⟨1, "alice", "creator"⟩ 1 ⟨[], [], [], []⟩ =
      (.creatorRejected, ⟨[], [], [], []⟩) ∧
    add_comment (fun _ => 0) ⟨1, "alice", "creator"⟩ 1 (some "hi")
      ⟨[], [], [], []⟩ = (.failure "Creators cannot comment", ⟨[], [], [], []⟩) :=
  creator_actions_rejected ⟨1, "alice", "creator"⟩ 1 (some "hi")
    (fun _ => 0) ⟨[], [], [], []⟩ rfl

/-- C1: for a non-creator caller, `add_comment` rejects missing or empty
text before any scoring; for nonempty text it rejects (creating no
Comment row) iff the polarity score is strictly below -0.3; every
accepted comment is stored with exactly one sentiment marker appended,
matching its category: positive if the score exceeds 0.3, negative if it
is below 0 (and at least -0.3), neutral otherwise. -/
theorem comment_moderation (pol : String → ℚ) (u : User) (pid : Nat)
    (db : DB) (hrole : ¬ u.role = "creator") :
    add_comment pol u pid none db = (.failure "Empty comment", db) ∧
    add_comment pol u pid (some "") db = (.failure "Empty comment", db) ∧
    negThreshold = -0.3 ∧ posThreshold = 0.3 ∧
    ∀ t, ¬ t = "" →
      (pol t < negThreshold →
        add_comment pol u pid (some t) db =
          (.failure "Blocked: Negative content 🚫", db)) ∧
      (¬ pol t < negThreshold →
        (add_comment pol u pid (some t) db).2.comments =
            db.comments ++ [⟨t ++ sentimentMarker (pol t), u.id, pid⟩] ∧
        (∃ ct, (add_comment pol u pid (some t) db).1 =
            .success u.username ct (sentimentLabel (pol t))) ∧
        (pol t > posThreshold →
          sentimentMarker (pol t) = " [AI: Positive]" ∧
          sentimentLabel (pol t) = "positive") ∧
        (pol t < 0 →
          sentimentMarker (pol t) = " [AI: Negative]" ∧
          sentimentLabel (pol t) = "negative") ∧
        (¬ pol t > posThreshold → ¬ pol t < 0 →
          sentimentMarker (pol t) = " [AI: Neutral]" ∧
          sentimentLabel (pol t) = "neutral")) := by
  refine ⟨by simp [add_comment, hrole], by simp [add_comment, hrole],
    negThreshold_eq, posThreshold_eq, fun t ht => ⟨?_, ?_⟩⟩
  · intro hneg
    simp [add_comment, hrole, ht, hneg]
  · intro hnneg
    have hposgt : (0 : ℚ) < posThreshold := by decide
    refine ⟨by simp [add_comment, hrole, ht, hnneg],
      ⟨String.mk (splitHead "[AI:".data
          (t.data ++ (sentimentMarker (pol t)).data)),
        by simp [add_comment, hrole, ht, hnneg]⟩, ?_, ?_, ?_⟩
    · intro hpos; simp [sentimentMarker, sentimentLabel, hpos]
    · intro hneg0
      have hnpos : ¬ pol t > posThreshold := by
        intro hc; exact absurd (lt_trans hneg0 (lt_trans hposgt hc)) (lt_irrefl _)
      simp [sentimentMarker, sentimentLabel, hnpos, hneg0]
    · intro h1 h2; simp [sentimentMarker, sentimentLabel, h1, h2]

/-- Witness for C1: a concrete consumer posting strongly negative text
(polarity -1) is blocked with no Comment row created. -/
theorem comment_moderation_witness :
    add_comment (fun _ => -1) ⟨2, "bob", "consumer"⟩ 1 (some "awful")
      ⟨[], [], [], []⟩ = (.failure "Blocked: Negative content 🚫", ⟨[], [], [], []⟩) :=
  ((comment_moderation (fun _ => -1) ⟨2, "bob", "consumer"⟩ 1
      ⟨[], [], [], []⟩ (by decide)).2.2.2.2 "awful" (by decide)).1 (by decide)

lemma pairEq_iff (uid pid : Nat) (q : Nat × Nat) :
    pairEq uid pid q = true ↔ q = (uid, pid) := by
  cases q with
  | mk a b => simp [pairEq, Prod.ext_iff]

lemma pairEq_self (uid pid : Nat) : pairEq uid pid (uid, pid) = true := by
  simp [pairEq]

/-- Toggling the membership of a `(user, photo)` pair twice, starting
from a table where the pair appears at most once, permutes the table
back to its original contents. -/
lemma toggleMembership_twice (uid pid : Nat) (l : List (Nat × Nat))
    (huniq : l.countP (pairEq uid pid) ≤ 1) :
    List.Perm (toggleMembership uid pid (toggleMembership uid pid l)) l := by
  unfold toggleMembership
  cases hf : l.find? (pairEq uid pid) with
  | none =>
    have hnone : ∀ a ∈ l, ¬ pairEq uid pid a = true := List.find?_eq_none.mp hf
    have hfind2 : (l ++ [(uid, pid)]).find? (pairEq uid pid)
        = some (uid, pid) := by
      rw [List.find?_append, hf, List.find?_cons_of_pos _ (pairEq_self uid pid)]
      rfl
    rw [hfind2, List.eraseP_append_right _ hnone,
      List.eraseP_cons_of_pos (pairEq_self uid pid)]
    simp
  | some x =>
    have px : pairEq uid pid x = true := List.find?_some hf
    have hx : x ∈ l := List.mem_of_find?_eq_some hf
    obtain ⟨a, l₁, l₂, hl₁, pa, hldecomp, herase⟩ := List.exists_of_eraseP hx px
    have haeq : a = (uid, pid) := (pairEq_iff uid pid a).mp pa
    have hcl₁ : l₁.countP (pairEq uid pid) = 0 := List.countP_eq_zero.mpr hl₁
    have hcl₂ : l₂.countP (pairEq uid pid) = 0 := by
      have : l.countP (pairEq uid pid) =
          l₁.countP (pairEq uid pid) + (l₂.countP (pairEq uid pid) + 1) := by
        rw [hldecomp, List.countP_append, List.countP_cons, pa]
        simp
      omega
    have herased0 : (l.eraseP (pairEq uid pid)).countP (pairEq uid pid) = 0 := by
      rw [herase, List.countP_append, hcl₁, hcl₂]
    have hfind2 : (l.eraseP (pairEq uid pid)).find? (pairEq uid pid) = none :=
      List.find?_eq_none.mpr (List.countP_eq_zero.mp herased0)
    rw [hfind2, herase, hldecomp, haeq]
    have hperm : List.Perm (l₁ ++ (l₂ ++ [(uid, pid)]))
        (l₁ ++ ((uid, pid) :: l₂)) :=
      List.Perm.append_left l₁ (List.perm_append_singleton _ _)
    simpa [List.append_assoc] using hperm

/-- C2: for a non-creator user and an existing photo, applying the like
toggle twice (no interleaving) returns the Like table to a permutation
of its original rows — hence the same `(user, photo)` membership state —
and the second response reports the original like count; likewise the
save toggle applied twice returns the Save table to its original
membership state. Hypotheses: the pair appears at most once per table,
the invariant the tables maintain. -/
theorem like_save_toggle_involution (u : User) (pid : Nat) (db : DB)
    (hrole : ¬ u.role = "creator")
    (hphoto : photoExists db pid = true)
    (hulike : db.likes.countP (pairEq u.id pid) ≤ 1)
    (husave : db.saves.countP (pairEq u.id pid) ≤ 1) :
    List.Perm (toggle_like u pid (toggle_like u pid db).2).2.likes db.likes ∧
    (∀ q, q ∈ (toggle_like u pid (toggle_like u pid db).2).2.likes ↔
      q ∈ db.likes) ∧
    likeCount (toggle_like u pid (toggle_like u pid db).2).2 pid =
      likeCount db pid ∧
    reportedCount (toggle_like u pid (toggle_like u pid db).2).1 =
      some (likeCount db pid) ∧
    List.Perm (toggle_save u pid (toggle_save u pid db).2).2.saves db.saves ∧
    (∀ q, q ∈ (toggle_save u pid (toggle_save u pid db).2).2.saves ↔
      q ∈ db.saves) := by
  have e1 : (toggle_like u pid db).2 =
      { db with likes := toggleMembership u.id pid db.likes } := by
    simp [toggle_like, hrole, hphoto]
  have hp1 : photoExists { db with likes := toggleMembership u.id pid db.likes }
      pid = true := hphoto
  have e2 : (toggle_like u pid (toggle_like u pid db).2).2 =
      { db with likes :=
        toggleMembership u.id pid (toggleMembership u.id pid db.likes) } := by
    rw [e1]; simp [toggle_like, hrole, hp1]
  have hperm : List.Perm
      (toggleMembership u.id pid (toggleMembership u.id pid db.likes))
      db.likes := toggleMembership_twice u.id pid db.likes hulike
  have hcnt : likeCount (toggle_like u pid (toggle_like u pid db).2).2 pid =
      likeCount db pid := by
    rw [e2]; exact List.Perm.countP_eq _ hperm
  have r2 : (toggle_like u pid (toggle_like u pid db).2).1 =
      .toggled ((toggleMembership u.id pid db.likes).find?
          (pairEq u.id pid)).isNone
        (likeCount (toggle_like u pid (toggle_like u pid db).2).2 pid) := by
    rw [e1]
    simp [toggle_like, hrole, hp1]
  have s1 : (toggle_save u pid db).2 =
      { db with saves := toggleMembership u.id pid db.saves } := by
    simp [toggle_save, hrole, hphoto]
  have hp2 : photoExists { db with saves := toggleMembership u.id pid db.saves }
      pid = true := hphoto
  have s2 : (toggle_save u pid (toggle_save u pid db).2).2 =
      { db with saves :=
        toggleMembership u.id pid (toggleMembership u.id pid db.saves) } := by
    rw [s1]; simp [toggle_save, hrole, hp2]
  have hperms : List.Perm
      (toggleMembership u.id pid (toggleMembership u.id pid db.saves))
      db.saves := toggleMembership_twice u.id pid db.saves husave
  refine ⟨by rw [e2]; exact hperm,
    fun q => by rw [e2]; exact List.Perm.mem_iff hperm,
    hcnt, by rw [r2, hcnt]; rfl,
    by rw [s2]; exact hperms,
    fun q => by rw [s2]; exact List.Perm.mem_iff hperms⟩

/-- Witness for C2: bob likes photo 1 twice starting from a state with
one like by another user; the table returns to its original contents
and the second response reports the original count 1. -/
theorem like_save_toggle_involution_witness :
    List.Perm (toggle_like ⟨2, "bob", "consumer"⟩ 1
        (toggle_like ⟨2, "bob", "consumer"⟩ 1
          ⟨[⟨1, "u", "t", none, none, none, "", 1⟩], [(3, 1)], [], []⟩).2).2.likes
      [(3, 1)] ∧
    (∀ q, q ∈ (toggle_like ⟨2, "bob", "consumer"⟩ 1
        (toggle_like ⟨2, "bob", "consumer"⟩ 1
          ⟨[⟨1, "u", "t", none, none, none, "", 1⟩], [(3, 1)], [], []⟩).2).2.likes ↔
      q ∈ [(3, 1)]) ∧
    likeCount (toggle_like ⟨2, "bob", "consumer"⟩ 1
        (toggle_like ⟨2, "bob", "consumer"⟩ 1
          ⟨[⟨1, "u", "t", none, none, none, "", 1⟩], [(3, 1)], [], []⟩).2).2 1 =
      likeCount ⟨[⟨1, "u", "t", none, none, none, "", 1⟩], [(3, 1)], [], []⟩ 1 ∧
    reportedCount (toggle_like ⟨2, "bob", "consumer"⟩ 1
        (toggle_like ⟨2, "bob", "consumer"⟩ 1
          ⟨[⟨1, "u", "t", none, none, none, "", 1⟩], [(3, 1)], [], []⟩).2).1 =
      some (likeCount ⟨[⟨1, "u", "t", none, none, none, "", 1⟩], [(3, 1)], [], []⟩ 1) ∧
    List.Perm (toggle_save ⟨2, "bob", "consumer"⟩ 1
        (toggle_save ⟨2, "bob", "consumer"⟩ 1
          ⟨[⟨1, "u", "t", none, none, none, "", 1⟩], [(3, 1)], [], []⟩).2).2.saves
      [] ∧
    (∀ q, q ∈ (toggle_save ⟨2, "bob", "consumer"⟩ 1
        (toggle_save ⟨2, "bob", "consumer"⟩ 1
          ⟨[⟨1, "u", "t", none, none, none, "", 1⟩], [(3, 1)], [], []⟩).2).2.saves ↔
      q ∈ ([] : List (Nat × Nat))) :=
  like_save_toggle_involution ⟨2, "bob", "consumer"⟩ 1
    ⟨[⟨1, "u", "t", none, none, none, "", 1⟩], [(3, 1)], [], []⟩
    (by decide) (by decide) (by decide) (by decide)

lemma toggleMembership_uniq (uid pid : Nat) (l : List (Nat × Nat))
    (h : UniquePairs l) : UniquePairs (toggleMembership uid pid l) := by
  intro q
  unfold toggleMembership
  cases hf : l.find? (pairEq uid pid) with
  | some x =>
    exact le_trans (List.Sublist.count_le (List.eraseP_sublist l) q) (h q)
  | none =>
    rw [List.count_append]
    have hnm : (uid, pid) ∉ l := fun hm =>
      (List.find?_eq_none.mp hf _ hm) (pairEq_self uid pid)
    by_cases hq : q = (uid, pid)
    · subst hq
      rw [List.count_eq_zero.mpr hnm]
      simp
    · have : q ∉ [(uid, pid)] := by simp [hq]
      rw [List.count_eq_zero.mpr this]
      exact le_trans (by omega) (h q)

/-- C9: starting from any state where each `(user, photo)` pair appears
at most once in the Like table and at most once in the Save table, every
`toggle_like` and `toggle_save` call — whatever the caller's role and
whether or not the photo exists — preserves that uniqueness invariant in
both tables. -/
theorem toggle_preserves_uniqueness (u : User) (pid : Nat) (db : DB)
    (hl : UniquePairs db.likes) (hs : UniquePairs db.saves) :
    (UniquePairs (toggle_like u pid db).2.likes ∧
      UniquePairs (toggle_like u pid db).2.saves) ∧
    (UniquePairs (toggle_save u pid db).2.likes ∧
      UniquePairs (toggle_save u pid db).2.saves) := by
  by_cases hr : u.role = "creator" <;>
    by_cases hp : photoExists db pid = true <;>
      simp only [toggle_like, toggle_save, hr, hp, if_true, if_false,
        if_pos, if_neg, Bool.false_eq_true, not_false_iff] <;>
      first
        | exact ⟨⟨hl, hs⟩, hl, hs⟩
        | exact ⟨⟨toggleMembership_uniq u.id pid db.likes hl, hs⟩,
            hl, toggleMembership_uniq u.id pid db.saves hs⟩

/-- Witness for C9: the invariant holds after bob toggles like and save
on a concrete valid state. -/
theorem toggle_preserves_uniqueness_witness :
    (UniquePairs (toggle_like ⟨2, "bob", "consumer"⟩ 1
        ⟨[⟨1, "u", "t", none, none, none, "", 1⟩], [(3, 1)], [(3, 1)], []⟩).2.likes ∧
      UniquePairs (toggle_like ⟨2, "bob", "consumer"⟩ 1
        ⟨[⟨1, "u", "t", none, none, none, "", 1⟩], [(3, 1)], [(3, 1)], []⟩).2.saves) ∧
    (UniquePairs (toggle_save ⟨2, "bob", "consumer"⟩ 1
        ⟨[⟨1, "u", "t", none, none, none, "", 1⟩], [(3, 1)], [(3, 1)], []⟩).2.likes ∧
      UniquePairs (toggle_save ⟨2, "bob", "consumer"⟩ 1
        ⟨[⟨1, "u", "t", none, none, none, "", 1⟩], [(3, 1)], [(3, 1)], []⟩).2.saves) :=
  toggle_preserves_uniqueness ⟨2, "bob", "consumer"⟩ 1
    ⟨[⟨1, "u", "t", none, none, none, "", 1⟩], [(3, 1)], [(3, 1)], []⟩
    (fun q => by
      by_cases h3 : q = (3, 1) <;> simp [List.count_cons, h3])
    (fun q => by
      by_cases h3 : q = (3, 1) <;> simp [List.count_cons, h3])

/-- C7: the storage backend policy of the upload handler, for a creator
submitting a valid form whose image decodes. The remote object store is
used iff a blob-service client was constructed and a container name is
configured (truthy); otherwise the local filesystem is used iff local
uploads are enabled; otherwise the upload fails with a user-visible
error and no Photo record is created. On a backend exception in either
branch the error is reported and the database is unchanged — no partial
Photo row. -/
theorem upload_backend_policy (cfg : StorageConfig) (u : User)
    (f t : String) (caption people location : Option String)
    (img : ImageObj) (azureOutcome localOutcome : Except String String)
    (newId : Nat) (db : DB)
    (hrole : u.role = "creator") (hf : ¬ f = "") (ht : ¬ t = "") :
    (cfg.blob_service_client.isSome = true ∧ envTruthy cfg.container_name = true →
      (∀ url, azureOutcome = .ok url →
        creator_dashboard cfg u (some f) (some t) caption people location
            (.ok img) azureOutcome localOutcome newId db =
          (.uploaded url, { db with photos := db.photos ++
            [⟨newId, url, t, caption, location, people,
              analyze_image img, u.id⟩] })) ∧
      (∀ e, azureOutcome = .error e →
        creator_dashboard cfg u (some f) (some t) caption people location
            (.ok img) azureOutcome localOutcome newId db =
          (.uploadError ("Upload Error: " ++ e), db))) ∧
    (¬(cfg.blob_service_client.isSome = true ∧
        envTruthy cfg.container_name = true) →
      (cfg.local_uploads = true →
        (∀ url, localOutcome = .ok url →
          creator_dashboard cfg u (some f) (some t) caption people location
              (.ok img) azureOutcome localOutcome newId db =
            (.uploaded url, { db with photos := db.photos ++
              [⟨newId, url, t, caption, location, people,
                analyze_image img, u.id⟩] })) ∧
        (∀ e, localOutcome = .error e →
          creator_dashboard cfg u (some f) (some t) caption people location
              (.ok img) azureOutcome localOutcome newId db =
            (.uploadError ("Upload Error: " ++ e), db))) ∧
      (cfg.local_uploads = false →
        creator_dashboard cfg u (some f) (some t) caption people location
            (.ok img) azureOutcome localOutcome newId db =
          (.storageUnavailable, db))) := by
  constructor
  · intro hz
    constructor
    · intro url hurl
      subst hurl
      simp [creator_dashboard, hrole, hf, ht, hz]
    · intro e he
      subst he
      simp [creator_dashboard, hrole, hf, ht, hz]
  · intro hz
    constructor
    · intro hloc
      constructor
      · intro url hurl
        subst hurl
        simp [creator_dashboard, hrole, hf, ht, hz, hloc]
      · intro e he
        subst he
        simp [creator_dashboard, hrole, hf, ht, hz, hloc]
    · intro hloc
      simp [creator_dashboard, hrole, hf, ht, hz, hloc]

/-- Witness for C7: with an Azure client and container configured, a
concrete upload stores to the remote backend and creates the Photo row;
the hypotheses are discharged at concrete values. -/
theorem upload_backend_policy_witness :
    creator_dashboard ⟨some (), some "photos", true⟩ ⟨1, "alice", "creator"⟩
        (some "x.jpg") (some "Snow") none none none
        (.ok (.ok ⟨2000, 2000, 255, 255, 255, 255⟩))
        (.ok "https://blob/x") (.ok "http://local/x") 7 ⟨[], [], [], []⟩ =
      (.uploaded "https://blob/x", ⟨[⟨7, "https://blob/x", "Snow", none, none,
        none, analyze_image (.ok ⟨2000, 2000, 255, 255, 255, 255⟩), 1⟩],
        [], [], []⟩) :=
  ((upload_backend_policy ⟨some (), some "photos", true⟩ ⟨1, "alice", "creator"⟩
      "x.jpg" "Snow" none none none (.ok ⟨2000, 2000, 255, 255, 255, 255⟩)
      (.ok "https://blob/x") (.ok "http://local/x") 7 ⟨[], [], [], []⟩
      rfl (by decide) (by decide)).1 (by decide)).1 "https://blob/x" rfl

lemma isPrefixOf_append_left (sep : List Char) :
    ∀ (u w : List Char), sep.length ≤ u.length →
      sep.isPrefixOf (u ++ w) = sep.isPrefixOf u := by
  induction sep with
  | nil => intro u w _; simp [List.isPrefixOf]
  | cons c cs ih =>
    intro u w h
    cases u with
    | nil => simp at h
    | cons d ds =>
      simp only [List.cons_append, List.isPrefixOf, List.append_eq]
      rw [ih ds w (by simp at h; omega)]

lemma not_occurs_drop (sep : List Char) :
    ∀ (s : List Char), occursIn sep s = false →
      ∀ i, sep.isPrefixOf (s.drop i) = false := by
  intro s
  induction s with
  | nil =>
    intro h i
    rw [List.drop_nil]
    cases sep with
    | nil => simp [occursIn] at h
    | cons c cs => rfl
  | cons c cs ih =>
    intro h i
    simp only [occursIn, Bool.or_eq_false_iff] at h
    cases i with
    | zero => exact h.1
    | succ n => rw [List.drop_succ_cons]; exact ih h.2 n

lemma isPrefixOf_mid :
    ∀ (s sep : List Char) (d : Char) (w : List Char),
      sep.isPrefixOf (s ++ d :: w) = true → s.length < sep.length →
      sep.get? s.length = some d := by
  intro s
  induction s with
  | nil =>
    intro sep d w h hl
    cases sep with
    | nil => simp at hl
    | cons e es =>
      simp only [List.nil_append, List.isPrefixOf, Bool.and_eq_true,
        beq_iff_eq] at h
      simp [h.1]
  | cons a as ih =>
    intro sep d w h hl
    cases sep with
    | nil => simp at hl
    | cons e es =>
      simp only [List.cons_append, List.isPrefixOf, Bool.and_eq_true] at h
      have := ih es d w h.2 (by simp at hl; omega)
      simpa using this

lemma splitHead_append (sep : List Char) :
    ∀ (u w : List Char),
      (∀ i, i < u.length → sep.isPrefixOf (u.drop i ++ w) = false) →
      splitHead sep (u ++ w) = u ++ splitHead sep w := by
  intro u
  induction u with
  | nil => intro w _; simp
  | cons c cs ih =>
    intro w h
    have h0 : sep.isPrefixOf (c :: (cs ++ w)) = false := by
      have := h 0 (by simp)
      simpa using this
    simp only [List.cons_append, splitHead, List.append_eq, h0,
      Bool.false_eq_true, if_false, List.cons.injEq, true_and]
    exact ih w (fun i hi => by
      have := h (i + 1) (by simp; omega)
      simpa using this)

lemma sepAI_cond (t r : List Char) (h : occursIn sepAI t = false) :
    ∀ i, i < (t ++ [' ']).length →
      sepAI.isPrefixOf ((t ++ [' ']).drop i ++ (sepAI ++ r)) = false := by
  intro i hi
  by_contra hc
  rw [Bool.not_eq_false] at hc
  have hi' : i ≤ t.length := by simp at hi; omega
  have hdrop : (t ++ [' ']).drop i = t.drop i ++ [' '] := by
    rw [List.drop_append_eq_append_drop, Nat.sub_eq_zero_of_le hi',
      List.drop_zero]
  rw [hdrop] at hc
  by_cases hlen : sepAI.length ≤ (t.drop i).length
  · rw [List.append_assoc, isPrefixOf_append_left sepAI (t.drop i) _ hlen] at hc
    rw [not_occurs_drop sepAI t h i] at hc
    exact Bool.noConfusion hc
  · push_neg at hlen
    rw [List.append_assoc, List.singleton_append] at hc
    have hget := isPrefixOf_mid (t.drop i) sepAI ' ' (sepAI ++ r) hc hlen
    have h4 : (t.drop i).length < 4 := by
      have : sepAI.length = 4 := rfl
      omega
    have hcase : (t.drop i).length = 0 ∨ (t.drop i).length = 1 ∨
        (t.drop i).length = 2 ∨ (t.drop i).length = 3 := by omega
    rcases hcase with h' | h' | h' | h' <;> rw [h'] at hget <;>
      exact absurd hget (by decide)

/-- The first `'[AI:'` in `text + ' [AI: …]'` is the appended marker's,
provided the original text contains no `'[AI:'`; truncating there
returns the text plus the marker's leading space. -/
lemma splitHead_marker (t rest : List Char) (hocc : occursIn sepAI t = false) :
    splitHead sepAI ((t ++ [' ']) ++ (sepAI ++ rest)) = t ++ [' '] := by
  rw [splitHead_append sepAI (t ++ [' ']) (sepAI ++ rest) (sepAI_cond t rest hocc)]
  have hpre : sepAI.isPrefixOf (sepAI ++ rest) = true := by
    rw [isPrefixOf_append_left sepAI sepAI rest (le_refl _)]
    decide
  have hnil : splitHead sepAI (sepAI ++ rest) = [] := by
    rw [show sepAI ++ rest = '[' :: ('A' :: 'I' :: ':' :: rest) from rfl,
      splitHead]
    rw [show sepAI.isPrefixOf ('[' :: ('A' :: 'I' :: ':' :: rest)) = true
      from hpre]
    rfl
  rw [hnil, List.append_nil]

/-- Evaluation of `add_comment` on an accepted comment: the stored row
appends the sentiment marker, the response carries the text truncated at
the first `'[AI:'`. -/
lemma add_comment_accepted (pol : String → ℚ) (u : User) (pid : Nat)
    (db : DB) (t : String) (hrole : ¬ u.role = "creator") (ht : ¬ t = "")
    (hacc : ¬ pol t < negThreshold) :
    add_comment pol u pid (some t) db =
      (.success u.username
        (String.mk (splitHead "[AI:".data (t ++ sentimentMarker (pol t)).data))
        (sentimentLabel (pol t)),
       { db with comments :=
          db.comments ++ [⟨t ++ sentimentMarker (pol t), u.id, pid⟩] }) := by
  simp [add_comment, hrole, ht, hacc]

lemma clean_of_marker (t mfull : String) (restl : List Char)
    (hocc : occursIn sepAI t.data = false)
    (hm : mfull.data = ' ' :: (sepAI ++ restl)) :
    String.mk (splitHead "[AI:".data (t ++ mfull).data) = t ++ " " := by
  apply String.ext
  show splitHead "[AI:".data (t ++ mfull).data = (t ++ " ").data
  rw [show "[AI:".data = sepAI from rfl, String.data_append, hm,
    String.data_append]
  have hsh : t.data ++ (' ' :: (sepAI ++ restl)) =
      (t.data ++ [' ']) ++ (sepAI ++ restl) := by simp
  rw [hsh, splitHead_marker t.data restl hocc]

lemma amended_case (pol : String → ℚ) (u : User) (pid : Nat) (db : DB)
    (t mfull mtail : String) (restl : List Char)
    (hrole : ¬ u.role = "creator") (ht : ¬ t = "")
    (hacc : ¬ pol t < negThreshold)
    (hocc : occursIn sepAI t.data = false)
    (hms : sentimentMarker (pol t) = mfull)
    (hm : mfull.data = ' ' :: (sepAI ++ restl))
    (hsplit : mfull = " " ++ mtail) :
    sentimentMarker (pol t) = " " ++ mtail ∧
    (add_comment pol u pid (some t) db).1 =
      .success u.username (t ++ " ") (sentimentLabel (pol t)) ∧
    (add_comment pol u pid (some t) db).2.comments =
      db.comments ++ [⟨(t ++ " ") ++ mtail, u.id, pid⟩] := by
  have hadd := add_comment_accepted pol u pid db t hrole ht hacc
  have hclean := clean_of_marker t mfull restl hocc hm
  refine ⟨by rw [hms, hsplit], ?_, ?_⟩
  · rw [hadd, hms, hclean]
  · rw [hadd]
    have hfull : t ++ mfull = (t ++ " ") ++ mtail := by
      rw [hsplit, String.append_assoc]
    simp [hms, hfull]

/-- C10 counterexample: for the accepted comment text `"a[AI:b"`
(polarity 0, neutral), the stored row is
`"a[AI:b [AI: Neutral]"` but the JSON response text is `"a"` — the split
happens at the text's own `"[AI:"`, so response and stored text do NOT
differ exactly by the marker suffix. -/
theorem clean_text_counterexample :
    (add_comment (fun _ => 0) ⟨2, "bob", "consumer"⟩ 1 (some "a[AI:b")
        ⟨[], [], [], []⟩).1 = .success "bob" "a" "neutral" ∧
    (add_comment (fun _ => 0) ⟨2, "bob", "consumer"⟩ 1 (some "a[AI:b")
        ⟨[], [], [], []⟩).2.comments =
      [⟨"a[AI:b [AI: Neutral]", 2, 1⟩] ∧
    ¬ "a[AI:b [AI: Neutral]" = "a" ++ "[AI: Neutral]" ∧
    ¬ "a[AI:b [AI: Neutral]" = "a" ++ " [AI: Neutral]" := by decide

/-- C10 (amended): for every accepted comment the response returns the
stored text truncated at the first occurrence of `"[AI:"` while the
stored Comment row retains the appended marker; when the original text
does not contain `"[AI:"`, that truncation point is the appended
marker's, so the response is the original text followed by the marker's
leading space and the stored text is the response followed by the
`"[AI: …]"` body — they differ exactly by the marker suffix. -/
theorem clean_text_amended (pol : String → ℚ) (u : User) (pid : Nat)
    (db : DB) (t : String)
    (hrole : ¬ u.role = "creator") (ht : ¬ t = "")
    (hacc : ¬ pol t < negThreshold)
    (hocc : occursIn sepAI t.data = false) :
    ∃ m, sentimentMarker (pol t) = " " ++ m ∧
      (add_comment pol u pid (some t) db).1 =
        .success u.username (t ++ " ") (sentimentLabel (pol t)) ∧
      (add_comment pol u pid (some t) db).2.comments =
        db.comments ++ [⟨(t ++ " ") ++ m, u.id, pid⟩] := by
  by_cases hpos : pol t > posThreshold
  · exact ⟨"[AI: Positive]", amended_case pol u pid db t " [AI: Positive]"
      "[AI: Positive]" " Positive]".data hrole ht hacc hocc
      (by simp [sentimentMarker, hpos]) (by decide) (by decide)⟩
  · by_cases hneg : pol t < 0
    · exact ⟨"[AI: Negative]", amended_case pol u pid db t " [AI: Negative]"
        "[AI: Negative]" " Negative]".data hrole ht hacc hocc
        (by simp [sentimentMarker, hpos, hneg]) (by decide) (by decide)⟩
    · exact ⟨"[AI: Neutral]", amended_case pol u pid db t " [AI: Neutral]"
        "[AI: Neutral]" " Neutral]".data hrole ht hacc hocc
        (by simp [sentimentMarker, hpos, hneg]) (by decide) (by decide)⟩

/-- Witness for the amended C10: for bob's comment `"nice"` with
polarity 1, the response text is `"nice "` and the stored text is
`"nice [AI: Positive]"` — the response plus the marker body. -/
theorem clean_text_amended_witness :
    ∃ m, sentimentMarker ((fun _ => (1 : ℚ)) "nice") = " " ++ m ∧
      (add_comment (fun _ => (1 : ℚ)) ⟨2, "bob", "consumer"⟩ 1 (some "nice")
        ⟨[], [], [], []⟩).1 =
        .success "bob" ("nice" ++ " ")
          (sentimentLabel ((fun _ => (1 : ℚ)) "nice")) ∧
      (add_comment (fun _ => (1 : ℚ)) ⟨2, "bob", "consumer"⟩ 1 (some "nice")
        ⟨[], [], [], []⟩).2.comments =
        [] ++ [⟨("nice" ++ " ") ++ m, 2, 1⟩] :=
  clean_text_amended (fun _ => (1 : ℚ)) ⟨2, "bob", "consumer"⟩ 1
    ⟨[], [], [], []⟩ "nice" (by decide) (by decide) (by decide) (by decide)

end PhotoShare
